import Mathlib

/-!
Shallow embedding of `src/jax/_src/pallas/mosaic/primitives.py` (Pallas
Mosaic TPU primitives): `repeat`, scoped `trace` markers, `run_scoped`
effect filtering, semaphore `signal`/`wait`, asynchronous DMA start/wait
with futures, and `device_id`.

Conventions of the embedding:
- Python exceptions are modelled by `Except PyErr`, where `PyErr` records
  the exception class (`ValueError`, `TypeError`, ...) and the message.
- Emitting a primitive operation (`prim_p.bind(...)`) is modelled by
  returning the list of emitted operations (`List Op`); a wrapper that can
  both emit and raise returns `List Op × Option PyErr` (ops emitted before
  the failure, then the propagated error) or `Except PyErr (List Op × _)`
  when nothing is emitted before the first possible failure.
- JAX pytrees (`tree_util.tree_flatten` / `tree_unflatten`) are external
  collaborators (not under `src/`); they are modelled from the spec as
  trees of leaves, `None` nodes and pair nodes, flattened to a leaf list
  plus a structural descriptor (the same tree with unit leaves).
-/

namespace MosaicPrimitives

/-- Python exception classes that appear in or around the embedded code. -/
inductive ErrKind where
  | ValueError
  | TypeError
  | IndexError
  deriving DecidableEq, Repr

/-- A Python exception: its class and its message. -/
structure PyErr where
  kind : ErrKind
  msg : String
  deriving DecidableEq, Repr

/-- Element dtypes relevant to the primitives (ints of two widths and a
float dtype suffice to express the dtype checks of the source). -/
inductive DType where
  | int32
  | int16
  | float32
  deriving DecidableEq, Repr

/-- Semaphore kinds (`tpu_core.SemaphoreType`); `tpu_core` is not under
`src/`, so the kinds are modelled from the spec: `REGULAR` is the only
kind valid for explicit signal/wait, and at least one other kind exists. -/
inductive SemKind where
  | REGULAR
  | DMA
  deriving DecidableEq, Repr

/-- A pytree: a leaf, a `None` (which flattens to no leaves), or a pair
node.  Python tuples are encoded as right-nested pairs.  Modelled from the
spec: the flatten/unflatten utilities (`jax.tree_util`) are external
collaborators, "packing an arbitrary nested structure of operands into a
flat sequence plus a structural descriptor, and reversing that packing". -/
inductive PyTree (α : Type) where
  | leaf (a : α)
  | nonetree
  | pair (l r : PyTree α)
  deriving DecidableEq, Repr

/-- The structural descriptor of a pytree: the tree with unit leaves. -/
def TreeDef := PyTree Unit
  deriving DecidableEq, Repr

/-- The flat leaf list of a pytree. -/
def PyTree.leavesList {α : Type} : PyTree α → List α
  | .leaf a => [a]
  | .nonetree => []
  | .pair l r => l.leavesList ++ r.leavesList

/-- The structural descriptor of a pytree (leaves forgotten). -/
def PyTree.structureOf {α : Type} : PyTree α → TreeDef
  | .leaf _ => .leaf ()
  | .nonetree => .nonetree
  | .pair l r => .pair l.structureOf r.structureOf

/-- Modelled from the spec: `tree_util.tree_flatten`. -/
def treeFlatten {α : Type} (t : PyTree α) : List α × TreeDef :=
  (t.leavesList, t.structureOf)

/-- Helper for unflattening: rebuild a tree with the given structure from a
prefix of the leaf list, returning the rebuilt tree and the unused rest. -/
def unflattenAux {α : Type} : TreeDef → List α → Option (PyTree α × List α)
  | .leaf _, x :: rest => some (.leaf x, rest)
  | .leaf _, [] => none
  | .nonetree, xs => some (.nonetree, xs)
  | .pair l r, xs => do
    let (tl, xs1) ← unflattenAux l xs
    let (tr, xs2) ← unflattenAux r xs1
    some (.pair tl tr, xs2)

/-- Modelled from the spec: `tree_util.tree_unflatten`; fails unless the
leaf list has exactly the arity of the descriptor. -/
def treeUnflatten {α : Type} (td : TreeDef) (xs : List α) : Option (PyTree α) :=
  match unflattenAux td xs with
  | some (t, []) => some t
  | _ => none

theorem unflattenAux_structureOf {α : Type} (t : PyTree α) (rest : List α) :
    unflattenAux t.structureOf (t.leavesList ++ rest) = some (t, rest) := by
  induction t generalizing rest with
  | leaf a => simp [PyTree.structureOf, PyTree.leavesList, unflattenAux]
  | nonetree => simp [PyTree.structureOf, PyTree.leavesList, unflattenAux]
  | pair l r ihl ihr =>
    simp [PyTree.structureOf, PyTree.leavesList, unflattenAux, List.append_assoc,
      ihl, ihr]

/-- Round trip: unflattening a tree's leaves through its structural
descriptor reconstructs the tree. -/
theorem treeUnflatten_treeFlatten {α : Type} (t : PyTree α) :
    treeUnflatten (treeFlatten t).2 (treeFlatten t).1 = some t := by
  have h := unflattenAux_structureOf t []
  simp only [List.append_nil] at h
  simp [treeUnflatten, treeFlatten, h]

/-- A per-dimension index expression (integer, slice, or dynamic), as in
the spec's Region Descriptor.  Modelled from the spec: the indexing module
(`jax._src.pallas.indexing`) is not under `src/`. -/
inductive Idx where
  | intIdx (i : Int)
  | sliceIdx (start len : Nat)
  | dynIdx
  deriving DecidableEq, Repr

/-- Region descriptor (`indexing.NDIndexer`): per-dimension index
expressions together with the shape they were validated against.
Modelled from the spec: treated as an opaque value constructed by a
by-index slicing constructor from (reference, raw indices). -/
structure NDIndexer where
  indices : List Idx
  shape : List Nat
  deriving DecidableEq, Repr

/-- Validity of one index expression against one dimension extent. -/
def idxValid : Idx → Nat → Bool
  | .intIdx i, n => decide (0 ≤ i ∧ i < (n : Int))
  | .sliceIdx start len, n => decide (start + len ≤ n)
  | .dynIdx, _ => true

/-- Modelled from the spec: `indexing.NDIndexer.from_indices_shape` is not
under `src/`; per the spec, "index expressions must be valid for the
referenced buffer's shape", so construction validates each index against
the corresponding dimension and fails otherwise. -/
def NDIndexer.fromIndicesShape (indices : List Idx) (shape : List Nat) :
    Except PyErr NDIndexer :=
  if indices.length = shape.length ∧
      (List.zip indices shape).all (fun p => idxValid p.1 p.2) then
    .ok ⟨indices, shape⟩
  else
    .error ⟨.ValueError, "invalid indices for shape"⟩

/-- A buffer reference: opaque identity plus a shape (the spec treats refs
as opaque values with a `shape` attribute). -/
structure Ref where
  id : Nat
  shape : List Nat
  deriving DecidableEq, Repr

/-- A semaphore value: opaque identity plus its kind. -/
structure Sem where
  id : Nat
  kind : SemKind
  deriving DecidableEq, Repr

/-- A traced array value: shape and dtype (the payload is irrelevant to
abstract evaluation). -/
structure Arr where
  shape : List Nat
  dtype : DType
  deriving DecidableEq, Repr

/-- A traced value that can appear as a primitive operand. -/
inductive Value where
  | ref (r : Ref)
  | sem (s : Sem)
  | idx (i : NDIndexer)
  | arr (a : Arr)
  deriving DecidableEq, Repr

/-- An abstract value (shape/dtype descriptor or semaphore descriptor), as
supplied to abstract-evaluation rules. -/
inductive AVal where
  | shaped (shape : List Nat) (dtype : DType)
  | semAval (kind : SemKind)
  | refAval (shape : List Nat)
  | opaqueAval
  deriving DecidableEq, Repr

/-- The abstract value of a traced value. -/
def avalOf : Value → AVal
  | .ref r => .refAval r.shape
  | .sem s => .semAval s.kind
  | .idx _ => .opaqueAval
  | .arr a => .shaped a.shape a.dtype

/-- Whether an abstract value is a semaphore (`isinstance(sem_aval,
tpu_core.AbstractSemaphore)`). -/
def AVal.isSemaphore : AVal → Bool
  | .semAval _ => true
  | _ => false

/-- The semaphore kind of an abstract value, when it is a semaphore. -/
def AVal.semKind : AVal → Option SemKind
  | .semAval k => some k
  | _ => none

/-- The dtype of an abstract value, when it has one (`aval.dtype`). -/
def AVal.dtype : AVal → Option DType
  | .shaped _ d => some d
  | _ => none

/-- Rendering used where the source interpolates an aval into a message. -/
def avalStr : AVal → String
  | .shaped _ _ => "ShapedArray"
  | .semAval _ => "AbstractSemaphore"
  | .refAval _ => "Ref"
  | .opaqueAval => "opaque"

/-- An effect, as in `jax._src.effects` (not under `src/`, modelled from
the spec): either a `JaxprInputEffect` referencing an operand position of
a jaxpr, or some other effect. -/
inductive Effect where
  | jaxprInput (index : Nat) (tag : Nat)
  | other (tag : Nat)
  deriving DecidableEq, Repr

/-- Whether an effect is a `JaxprInputEffect`. -/
def Effect.isJaxprInputEffect : Effect → Bool
  | .jaxprInput _ _ => true
  | .other _ => false

/-- The `input_index` of an effect (only meaningful on input effects; the
source only reads it after an `isinstance` check). -/
def Effect.input_index : Effect → Nat
  | .jaxprInput i _ => i
  | .other _ => 0

/-- A traced sub-program, as returned by the external tracing collaborator
(`pe.trace_to_jaxpr_dynamic`, not under `src/`): per the spec it carries a
declared effect set and the list of constvars (captured external
constants); only their count matters here, so constvars are variable ids. -/
structure Jaxpr where
  constvars : List Nat
  effects : Finset Effect
  deriving DecidableEq

/-- An emitted primitive operation (`prim_p.bind(...)`). -/
inductive Op where
  | repeatOp (x : Value) (repeats : Nat) (axis : Int)
  | traceStart (message : String) (level : Int)
  | traceStop
  | runScoped (consts : List Value) (jaxpr : Jaxpr)
  | semSignal (args : List Value) (has_device_id : Bool)
  | semWait (args : List Value)
  | dmaStart (flat_args : List Value) (tree : TreeDef)
  | dmaWait (flat_args : List Value) (tree : TreeDef)
  | deviceIdOp
  deriving DecidableEq

/-- A shaped-array abstract value as built by `jax_core.ShapedArray`. -/
structure ShapedArray where
  shape : List Nat
  dtype : DType
  deriving DecidableEq, Repr

/-- Abstract evaluation of `repeat` (`_repeat_abstract_eval`): copy the
shape, multiply entry `axis` by `repeats` (Python list indexing, so a
negative axis counts from the end and an out-of-range axis raises
`IndexError`), keep the dtype. -/
def _repeat_abstract_eval (x : ShapedArray) (repeats : Nat) (axis : Int) :
    Except PyErr ShapedArray :=
  let n := x.shape.length
  let i : Int := if axis < 0 then axis + n else axis
  if 0 ≤ i ∧ i < n then
    .ok ⟨x.shape.set i.toNat (x.shape.getD i.toNat 0 * repeats), x.dtype⟩
  else
    .error ⟨.IndexError, "list assignment index out of range"⟩

/-- The `repeat` wrapper: bind `repeat_p`, running its abstract-eval rule. -/
def repeatPrim (x : Arr) (repeats : Nat) (axis : Int) :
    Except PyErr (List Op × ShapedArray) := do
  let out ← _repeat_abstract_eval ⟨x.shape, x.dtype⟩ repeats axis
  return ([Op.repeatOp (.arr x) repeats axis], out)

/-- Abstract evaluation of `trace_start` (`_trace_start_abstract_eval`):
discards message and level and returns no results (and the primitive is
registered without effects). -/
def _trace_start_abstract_eval (message : String) (level : Int) : List AVal :=
  let _ := message
  let _ := level
  []

/-- Abstract evaluation of `trace_stop` (`_trace_stop_abstract_eval`): no
results, no effects. -/
def _trace_stop_abstract_eval : List AVal := []

/-- The outcome of running a guarded region: the operations it emitted and
the exception it raised, if any. -/
def BodyRun := List Op × Option PyErr

/-- The `trace(message, level)` context manager: bind `trace_start_p`,
run the body, and bind `trace_stop_p` afterwards.  The source generator
has no try/finally, so when the body raises, the exception propagates
from the `yield` and `trace_stop_p.bind()` is never reached. -/
def trace (message : String) (level : Int) (body : BodyRun) :
    List Op × Option PyErr :=
  match body with
  | (ops, none) => (Op.traceStart message level :: (ops ++ [Op.traceStop]), none)
  | (ops, some e) => (Op.traceStart message level :: ops, some e)

/-- Abstract evaluation of `run_scoped` (`_run_scoped_abstract_eval`,
registered with `def_effectful_abstract_eval`): no results, and the
effect set of the jaxpr restricted to the effects that are not
`JaxprInputEffect`s with `input_index >= len(jaxpr.constvars)` — input
effects on the scope-allocated refs are local and do not propagate. -/
def _run_scoped_abstract_eval (args : List AVal) (jaxpr : Jaxpr) :
    List AVal × Finset Effect :=
  let _ := args
  ([], jaxpr.effects.filter
    (fun eff => ¬ (eff.isJaxprInputEffect = true ∧
      jaxpr.constvars.length ≤ eff.input_index)))

/-- A resource type specification passed to `run_scoped`; its `get_aval`
is the abstract value of the resource as if allocated. -/
structure TypeSpec where
  aval : AVal
  deriving DecidableEq

/-- The `t.get_aval()` method of a resource type specification. -/
def TypeSpec.get_aval (t : TypeSpec) : AVal := t.aval

/-- The `run_scoped(f, *types, **kw_types)` wrapper: flatten the type
specifications, take their avals, trace the body with the external
tracing collaborator (`pe.trace_to_jaxpr_dynamic`, represented by the
`tracer` argument), and bind `run_scoped_p` on the captured constants and
the traced jaxpr.  If tracing raises, the exception propagates before
anything is bound. -/
def run_scoped
    (tracer : List AVal → Except PyErr (Jaxpr × List Value))
    (types : PyTree TypeSpec) : List Op × Option PyErr :=
  let flat_types := (treeFlatten types).1
  let avals := flat_types.map TypeSpec.get_aval
  match tracer avals with
  | .error e => ([], some e)
  | .ok (jaxpr, consts) =>
    let _ := _run_scoped_abstract_eval (consts.map avalOf) jaxpr
    ([Op.runScoped consts jaxpr], none)

/-- Abstract evaluation of `semaphore_signal`
(`_semaphore_signal_abstract_eval`): the first operand must be a REGULAR
semaphore, the value an int32, and, when present, the device id an int32;
each violation raises a `ValueError`. -/
def _semaphore_signal_abstract_eval (sem_aval : AVal) (value : AVal)
    (args : List AVal) (has_device_id : Bool) : Except PyErr (List AVal) :=
  if ¬ sem_aval.isSemaphore then
    .error ⟨.ValueError,
      "Cannot signal on a non-semaphore value: " ++ avalStr sem_aval⟩
  else if sem_aval.semKind ≠ some SemKind.REGULAR then
    .error ⟨.ValueError, "Must signal a REGULAR semaphore."⟩
  else if value.dtype ≠ some DType.int32 then
    .error ⟨.ValueError, "Must signal an int32 value."⟩
  else if has_device_id then
    match args with
    | [device_id] =>
      if device_id.dtype ≠ some DType.int32 then
        .error ⟨.ValueError, "device_id must be an int32 value."⟩
      else
        .ok []
    | _ => .error ⟨.ValueError, "not enough values to unpack"⟩
  else
    .ok []

/-- Modelled from the spec: `jnp.asarray(x, dtype=jnp.int32)` converts its
argument to an int32 array of the same shape (a cast, never a rejection,
for the numeric dtypes modelled here). -/
def asarrayInt32 (x : Arr) : Arr := ⟨x.shape, .int32⟩

/-- The `semaphore_signal` wrapper: coerce the increment to int32 with
`jnp.asarray`, append the device id when supplied, and bind
`semaphore_signal_p` (running its abstract-eval rule). -/
def semaphore_signal (sem : Value) (inc : Arr) (device_id : Option Value) :
    Except PyErr (List Op) := do
  let inc := asarrayInt32 inc
  let has_device_id := device_id.isSome
  let extra : List Value := match device_id with
    | some d => [d]
    | none => []
  let args : List Value := [sem, .arr inc] ++ extra
  let _ ← _semaphore_signal_abstract_eval (avalOf sem) (avalOf (.arr inc))
    (extra.map avalOf) has_device_id
  return [Op.semSignal args has_device_id]

/-- Abstract evaluation of `semaphore_wait`
(`_semaphore_wait_abstract_eval`): the first operand must be a REGULAR
semaphore and the value an int32; each violation raises a `ValueError`
(the dtype message says "signal", as in the source). -/
def _semaphore_wait_abstract_eval (sem_aval : AVal) (value : AVal) :
    Except PyErr (List AVal) :=
  if ¬ sem_aval.isSemaphore then
    .error ⟨.ValueError,
      "Cannot wait on a non-semaphore value: " ++ avalStr sem_aval⟩
  else if sem_aval.semKind ≠ some SemKind.REGULAR then
    .error ⟨.ValueError, "Must wait a REGULAR semaphore."⟩
  else if value.dtype ≠ some DType.int32 then
    .error ⟨.ValueError, "Must signal an int32 value."⟩
  else
    .ok []

/-- The `semaphore_wait` wrapper: coerce the decrement to int32 with
`jnp.asarray` and bind `semaphore_wait_p`. -/
def semaphore_wait (sem : Value) (dec : Arr) : Except PyErr (List Op) := do
  let dec := asarrayInt32 dec
  let _ ← _semaphore_wait_abstract_eval (avalOf sem) (avalOf (.arr dec))
  return [Op.semWait [sem, .arr dec]]

/-- A DMA future (`DMAFuture`): the flattened operands a later wait needs,
plus their structural descriptor. -/
structure DMAFuture where
  flat_args : List Value
  tree : TreeDef
  deriving DecidableEq

/-- Abstract evaluation of `dma_start` (`_dma_start_abstract_eval`):
deletes its operands and descriptor and returns no results; the primitive
is registered with `def_abstract_eval` (not effectful), so it declares no
effects, and the rule never raises. -/
def _dma_start_abstract_eval (args : List AVal) (tree : TreeDef) :
    Except PyErr (List AVal × Finset Effect) :=
  let _ := args
  let _ := tree
  .ok ([], ∅)

/-- Abstract evaluation of `dma_wait` (`_dma_wait_abstract_eval`): same as
`dma_start`: no results, no effects, never raises. -/
def _dma_wait_abstract_eval (args : List AVal) (tree : TreeDef) :
    Except PyErr (List AVal × Finset Effect) :=
  let _ := args
  let _ := tree
  .ok ([], ∅)

/-- The `DMAFuture.wait` method: bind `dma_wait_p` on the stored flattened
operands and descriptor. -/
def DMAFuture.wait (fut : DMAFuture) : Except PyErr (List Op) := do
  let _ ← _dma_wait_abstract_eval (fut.flat_args.map avalOf) fut.tree
  return [Op.dmaWait fut.flat_args fut.tree]

/-- A Python tuple of seven components, encoded as right-nested pairs. -/
def tup7 {α : Type} (a b c d e f g : PyTree α) : PyTree α :=
  .pair a (.pair b (.pair c (.pair d (.pair e (.pair f g)))))

/-- A Python tuple of three components, encoded as right-nested pairs. -/
def tup3 {α : Type} (a b c : PyTree α) : PyTree α :=
  .pair a (.pair b c)

/-- The `dma_start` wrapper: build both region descriptors, flatten
`(src_ref, src_indexer, dst_ref, dst_indexer, sem, None, None)`, bind
`dma_start_p` on the flattened operands, and return a future holding the
flattened `(sem, dst_ref, dst_indexer)` and its descriptor. -/
def dma_start (src_ref : Ref) (src_indices : List Idx) (dst_ref : Ref)
    (dst_indices : List Idx) (sem : Sem) :
    Except PyErr (List Op × DMAFuture) := do
  let src_indexer ← NDIndexer.fromIndicesShape src_indices src_ref.shape
  let dst_indexer ← NDIndexer.fromIndicesShape dst_indices dst_ref.shape
  let args : PyTree Value := tup7 (.leaf (.ref src_ref))
    (.leaf (.idx src_indexer)) (.leaf (.ref dst_ref))
    (.leaf (.idx dst_indexer)) (.leaf (.sem sem)) .nonetree .nonetree
  let (flat_args, tree) := treeFlatten args
  let _ ← _dma_start_abstract_eval (flat_args.map avalOf) tree
  let (wait_args, wtree) := treeFlatten (tup3 (.leaf (.sem sem))
    (.leaf (.ref dst_ref)) (.leaf (.idx dst_indexer)))
  return ([Op.dmaStart flat_args tree], ⟨wait_args, wtree⟩)

/-- The `remote_dma_start` wrapper: build both region descriptors, flatten
`(src_ref, src_indexer, dst_ref, dst_indexer, dst_sem, src_sem,
device_id)`, bind `dma_start_p` once on the flattened operands, and
return the send future over `(src_sem, src_ref, src_indexer)` and the
receive future over `(dst_sem, dst_ref, dst_indexer)`. -/
def remote_dma_start (src_ref : Ref) (src_indices : List Idx) (dst_ref : Ref)
    (dst_indices : List Idx) (src_sem : Sem) (dst_sem : Sem)
    (device_id : Arr) :
    Except PyErr (List Op × DMAFuture × DMAFuture) := do
  let src_indexer ← NDIndexer.fromIndicesShape src_indices src_ref.shape
  let dst_indexer ← NDIndexer.fromIndicesShape dst_indices dst_ref.shape
  let args : PyTree Value := tup7 (.leaf (.ref src_ref))
    (.leaf (.idx src_indexer)) (.leaf (.ref dst_ref))
    (.leaf (.idx dst_indexer)) (.leaf (.sem dst_sem)) (.leaf (.sem src_sem))
    (.leaf (.arr device_id))
  let (flat_args, tree) := treeFlatten args
  let _ ← _dma_start_abstract_eval (flat_args.map avalOf) tree
  let (recv_args, recv_tree) := treeFlatten (tup3 (.leaf (.sem dst_sem))
    (.leaf (.ref dst_ref)) (.leaf (.idx dst_indexer)))
  let (send_args, send_tree) := treeFlatten (tup3 (.leaf (.sem src_sem))
    (.leaf (.ref src_ref)) (.leaf (.idx src_indexer)))
  return ([Op.dmaStart flat_args tree],
    ⟨send_args, send_tree⟩, ⟨recv_args, recv_tree⟩)

/-- Abstract evaluation of `device_id` (`_device_id_abstract_eval`): a
rank-0 `ShapedArray` with dtype int32, in every call context. -/
def _device_id_abstract_eval : ShapedArray := ⟨[], .int32⟩

theorem getD_set_self : ∀ (l : List Nat) (i : Nat) (a : Nat),
    i < l.length → (l.set i a).getD i 0 = a
  | _ :: _, 0, _, _ => rfl
  | _ :: xs, i + 1, a, h => getD_set_self xs i a (by simpa using h)

theorem getD_set_ne : ∀ (l : List Nat) (i j : Nat) (a : Nat),
    j ≠ i → (l.set i a).getD j 0 = l.getD j 0
  | [], _, _, _, _ => rfl
  | _ :: _, 0, 0, _, hne => absurd rfl hne
  | _ :: _, 0, _ + 1, _, _ => rfl
  | _ :: _, _ + 1, 0, _, _ => rfl
  | _ :: xs, i + 1, j + 1, a, hne =>
    getD_set_ne xs i j a (fun h => hne (by rw [h]))

/-- C9: the abstract evaluation of device_id yields a rank-0 (scalar)
abstract result whose element type is 32-bit signed integer, in every
call context (the rule takes no inputs at all). -/
theorem device_id_abstract_eval_scalar_int32 :
    _device_id_abstract_eval.shape.length = 0 ∧
    _device_id_abstract_eval.shape = [] ∧
    _device_id_abstract_eval.dtype = DType.int32 :=
  ⟨rfl, rfl, rfl⟩

/-- C10: for every operand list and structural descriptor, the
abstract-evaluation rules of dma_start and dma_wait return the empty
result list and declare no effects, never raising: malformed DMA operands
are never rejected at primitive bind time. -/
theorem dma_abstract_eval_no_validation (args : List AVal) (tree : TreeDef) :
    _dma_start_abstract_eval args tree = .ok ([], ∅) ∧
    _dma_wait_abstract_eval args tree = .ok ([], ∅) :=
  ⟨rfl, rfl⟩

theorem repeat_abstract_eval_eq (x : ShapedArray) (repeats : Nat)
    (axis : Nat) (h : axis < x.shape.length) :
    _repeat_abstract_eval x repeats (axis : Int)
      = .ok ⟨x.shape.set axis (x.shape.getD axis 0 * repeats), x.dtype⟩ := by
  unfold _repeat_abstract_eval
  have h1 : ¬ ((axis : Int) < 0) := by omega
  have h2 : (0 : Int) ≤ (axis : Int) ∧ (axis : Int) < x.shape.length := by
    constructor
    · omega
    · exact_mod_cast h
  simp only [h1, if_false, if_pos h2, Int.toNat_natCast]

/-- C8: for every input abstract value, repeat count and valid axis, the
abstract evaluation of repeat returns a result whose shape is the input
shape with the axis dimension multiplied by the repeat count and all
other dimensions unchanged, with the element type unchanged. -/
theorem repeat_abstract_eval_shape (x : ShapedArray) (repeats : Nat)
    (axis : Nat) (h : axis < x.shape.length) :
    ∃ r : ShapedArray,
      _repeat_abstract_eval x repeats (axis : Int) = .ok r ∧
      r.shape.length = x.shape.length ∧
      r.shape.getD axis 0 = x.shape.getD axis 0 * repeats ∧
      (∀ j : Nat, j ≠ axis → r.shape.getD j 0 = x.shape.getD j 0) ∧
      r.dtype = x.dtype := by
  refine ⟨⟨x.shape.set axis (x.shape.getD axis 0 * repeats), x.dtype⟩,
    repeat_abstract_eval_eq x repeats axis h, ?_, ?_, ?_, rfl⟩
  · exact List.length_set x.shape axis _
  · exact getD_set_self x.shape axis _ h
  · exact fun j hj => getD_set_ne x.shape axis j _ hj

/-- Witness for C8, which is also the concrete instance named in the
claim: on shape (4, 5) with three repeats along axis 1 the abstract
result has shape (4, 15) and the element type is unchanged. -/
theorem repeat_abstract_eval_shape_witness :
    1 < (ShapedArray.mk [4, 5] DType.float32).shape.length ∧
    (∃ r : ShapedArray,
      _repeat_abstract_eval ⟨[4, 5], DType.float32⟩ 3 ((1 : Nat) : Int) = .ok r ∧
      r.shape.length = (ShapedArray.mk [4, 5] DType.float32).shape.length ∧
      r.shape.getD 1 0 = (ShapedArray.mk [4, 5] DType.float32).shape.getD 1 0 * 3 ∧
      (∀ j : Nat, j ≠ 1 →
        r.shape.getD j 0 = (ShapedArray.mk [4, 5] DType.float32).shape.getD j 0) ∧
      r.dtype = DType.float32) ∧
    _repeat_abstract_eval ⟨[4, 5], DType.float32⟩ 3 1
      = .ok ⟨[4, 15], DType.float32⟩ :=
  ⟨by decide,
    repeat_abstract_eval_shape ⟨[4, 5], DType.float32⟩ 3 1 (by decide),
    by rfl⟩

/-- C6 counterexample: when the guarded region raises, the trace context
manager (whose generator has no try/finally) does not emit trace_stop:
the emitted operations are just the trace_start, and the exception
propagates. -/
theorem trace_stop_missing_on_exception_counterex :
    trace "region" 10 ([], some ⟨ErrKind.ValueError, "boom"⟩)
      = ([Op.traceStart "region" 10], some ⟨ErrKind.ValueError, "boom"⟩) ∧
    Op.traceStop ∉ [Op.traceStart "region" 10] :=
  ⟨rfl, by decide⟩

/-- C6 amended: entering the scope emits exactly one trace_start before
the body's operations; on normal exit exactly one trace_stop is emitted
after them; when the guarded region raises, the exception propagates and
no trace_stop is emitted; both ends produce no results (and both
primitives are registered without effects). -/
theorem trace_paired_emission (message : String) (level : Int)
    (ops : List Op) :
    trace message level (ops, none)
      = (Op.traceStart message level :: (ops ++ [Op.traceStop]), none) ∧
    (∀ e : PyErr, trace message level (ops, some e)
      = (Op.traceStart message level :: ops, some e)) ∧
    _trace_start_abstract_eval message level = [] ∧
    _trace_stop_abstract_eval = [] :=
  ⟨rfl, fun _ => rfl, rfl, rfl⟩

/-- C7: when tracing the body of run_scoped fails, the failure propagates
unmodified to the caller and no run_scoped operation is emitted. -/
theorem run_scoped_trace_failure_propagates
    (tracer : List AVal → Except PyErr (Jaxpr × List Value))
    (types : PyTree TypeSpec) (e : PyErr)
    (h : tracer ((treeFlatten types).1.map TypeSpec.get_aval) = .error e) :
    run_scoped tracer types = ([], some e) := by
  simp [run_scoped, treeFlatten] at h ⊢
  rw [h]

/-- Witness for C7 at a concrete failing tracer. -/
theorem run_scoped_trace_failure_propagates_witness :
    (fun _ : List AVal =>
        (Except.error ⟨ErrKind.ValueError, "tracing failed"⟩ :
          Except PyErr (Jaxpr × List Value)))
      ((treeFlatten (PyTree.nonetree : PyTree TypeSpec)).1.map
        TypeSpec.get_aval) = .error ⟨ErrKind.ValueError, "tracing failed"⟩ ∧
    run_scoped
      (fun _ => .error ⟨ErrKind.ValueError, "tracing failed"⟩)
      (PyTree.nonetree : PyTree TypeSpec)
      = ([], some ⟨ErrKind.ValueError, "tracing failed"⟩) :=
  ⟨rfl, run_scoped_trace_failure_propagates _ _ _ rfl⟩

/-- C1: the effect set exposed by the run_scoped abstract evaluation
retains exactly the sub-program effects that are not input-effects whose
referenced position is at or beyond the sub-program's constant-input
count; an input-effect below the constant count (a captured external
constant) is retained, an input-effect at or beyond it (a freshly
allocated scope-local resource) is dropped, and every non-input effect is
retained unconditionally. -/
theorem run_scoped_abstract_eval_effect_filtering
    (args : List AVal) (jaxpr : Jaxpr) :
    (∀ eff : Effect,
      eff ∈ (_run_scoped_abstract_eval args jaxpr).2 ↔
        (eff ∈ jaxpr.effects ∧
          ¬ (eff.isJaxprInputEffect = true ∧
            jaxpr.constvars.length ≤ eff.input_index))) ∧
    (∀ i tag : Nat, i < jaxpr.constvars.length →
      Effect.jaxprInput i tag ∈ jaxpr.effects →
      Effect.jaxprInput i tag ∈ (_run_scoped_abstract_eval args jaxpr).2) ∧
    (∀ i tag : Nat, jaxpr.constvars.length ≤ i →
      Effect.jaxprInput i tag ∉ (_run_scoped_abstract_eval args jaxpr).2) ∧
    (∀ tag : Nat, Effect.other tag ∈ jaxpr.effects →
      Effect.other tag ∈ (_run_scoped_abstract_eval args jaxpr).2) := by
  have hmem : ∀ eff : Effect,
      eff ∈ (_run_scoped_abstract_eval args jaxpr).2 ↔
        (eff ∈ jaxpr.effects ∧
          ¬ (eff.isJaxprInputEffect = true ∧
            jaxpr.constvars.length ≤ eff.input_index)) := by
    intro eff
    simp [_run_scoped_abstract_eval, Finset.mem_filter]
  refine ⟨hmem, ?_, ?_, ?_⟩
  · intro i tag hi hin
    rw [hmem]
    refine ⟨hin, ?_⟩
    simp [Effect.isJaxprInputEffect, Effect.input_index]
    omega
  · intro i tag hi hin
    rw [hmem] at hin
    exact hin.2 ⟨rfl, hi⟩
  · intro tag hin
    rw [hmem]
    refine ⟨hin, ?_⟩
    simp [Effect.isJaxprInputEffect]

/-- Witness for C1 at a concrete jaxpr with one constvar: the input
effect on the captured constant (position 0) is retained, the input
effect on the allocated resource (position 1) is dropped, and the
non-input effect is retained. -/
theorem run_scoped_effect_filtering_witness :
    0 < (Jaxpr.mk [7] {Effect.jaxprInput 0 0, Effect.jaxprInput 1 1,
        Effect.other 2}).constvars.length ∧
    Effect.jaxprInput 0 0 ∈ (_run_scoped_abstract_eval []
      (Jaxpr.mk [7] {Effect.jaxprInput 0 0, Effect.jaxprInput 1 1,
        Effect.other 2})).2 ∧
    Effect.jaxprInput 1 1 ∉ (_run_scoped_abstract_eval []
      (Jaxpr.mk [7] {Effect.jaxprInput 0 0, Effect.jaxprInput 1 1,
        Effect.other 2})).2 ∧
    Effect.other 2 ∈ (_run_scoped_abstract_eval []
      (Jaxpr.mk [7] {Effect.jaxprInput 0 0, Effect.jaxprInput 1 1,
        Effect.other 2})).2 := by
  obtain ⟨_, h2, h3, h4⟩ := run_scoped_abstract_eval_effect_filtering []
    (Jaxpr.mk [7] {Effect.jaxprInput 0 0, Effect.jaxprInput 1 1,
      Effect.other 2})
  exact ⟨by decide, h2 0 0 (by decide) (by decide), h3 1 1 (by decide),
    h4 2 (by decide)⟩

/-- C4 counterexample: at a concrete invalid invocation (signaling a
non-semaphore value), the validation failure raised at bind time is a
ValueError, not a TypeError-class failure as the claim states. -/
theorem semaphore_validation_not_typeerror_counterex :
    _semaphore_signal_abstract_eval (AVal.shaped [] DType.int32)
      (AVal.shaped [] DType.int32) [] false
      = .error ⟨ErrKind.ValueError,
          "Cannot signal on a non-semaphore value: ShapedArray"⟩ ∧
    ErrKind.ValueError ≠ ErrKind.TypeError :=
  ⟨rfl, by decide⟩

/-- C4 amended: for every primitive bind of signal or wait in which the
semaphore operand is not a semaphore value, or the semaphore's kind is
not REGULAR, or the increment/decrement or device_id operand is not a
32-bit signed integer, a ValueError-class validation failure is raised at
bind time, before any execution. -/
theorem semaphore_validation_valueerror_at_bind :
    (∀ (sem_aval value : AVal) (args : List AVal) (has_device_id : Bool),
      (sem_aval.isSemaphore = false ∨
        sem_aval.semKind ≠ some SemKind.REGULAR ∨
        value.dtype ≠ some DType.int32 ∨
        (has_device_id = true ∧
          ∃ d : AVal, args = [d] ∧ d.dtype ≠ some DType.int32)) →
      ∃ msg : String,
        _semaphore_signal_abstract_eval sem_aval value args has_device_id
          = .error ⟨ErrKind.ValueError, msg⟩) ∧
    (∀ sem_aval value : AVal,
      (sem_aval.isSemaphore = false ∨
        sem_aval.semKind ≠ some SemKind.REGULAR ∨
        value.dtype ≠ some DType.int32) →
      ∃ msg : String, _semaphore_wait_abstract_eval sem_aval value
        = .error ⟨ErrKind.ValueError, msg⟩) := by
  constructor
  · intro sem_aval value args has_device_id hbad
    by_cases h1 : sem_aval.isSemaphore = true
    · by_cases h2 : sem_aval.semKind = some SemKind.REGULAR
      · by_cases h3 : value.dtype = some DType.int32
        · rcases hbad with hb | hb | hb | hb
          · rw [h1] at hb; exact absurd hb (by decide)
          · exact absurd h2 hb
          · exact absurd h3 hb
          · obtain ⟨hdev, d, hargs, hd⟩ := hb
            subst hdev
            subst hargs
            exact ⟨"device_id must be an int32 value.",
              by simp [_semaphore_signal_abstract_eval, h1, h2, h3, hd]⟩
        · exact ⟨"Must signal an int32 value.",
            by simp [_semaphore_signal_abstract_eval, h1, h2, h3]⟩
      · exact ⟨"Must signal a REGULAR semaphore.",
          by simp [_semaphore_signal_abstract_eval, h1, h2]⟩
    · have h1' : sem_aval.isSemaphore = false := by
        revert h1; cases sem_aval.isSemaphore <;> simp
      exact ⟨"Cannot signal on a non-semaphore value: " ++ avalStr sem_aval,
        by simp [_semaphore_signal_abstract_eval, h1']⟩
  · intro sem_aval value hbad
    by_cases h1 : sem_aval.isSemaphore = true
    · by_cases h2 : sem_aval.semKind = some SemKind.REGULAR
      · by_cases h3 : value.dtype = some DType.int32
        · rcases hbad with hb | hb | hb
          · rw [h1] at hb; exact absurd hb (by decide)
          · exact absurd h2 hb
          · exact absurd h3 hb
        · exact ⟨"Must signal an int32 value.",
            by simp [_semaphore_wait_abstract_eval, h1, h2, h3]⟩
      · exact ⟨"Must wait a REGULAR semaphore.",
          by simp [_semaphore_wait_abstract_eval, h1, h2]⟩
    · have h1' : sem_aval.isSemaphore = false := by
        revert h1; cases sem_aval.isSemaphore <;> simp
      exact ⟨"Cannot wait on a non-semaphore value: " ++ avalStr sem_aval,
        by simp [_semaphore_wait_abstract_eval, h1']⟩

/-- Witness for C4 at a concrete input: signaling and waiting on a
non-REGULAR (DMA-kind) semaphore raises a ValueError at bind time. -/
theorem semaphore_validation_valueerror_witness :
    (AVal.semAval SemKind.DMA).semKind ≠ some SemKind.REGULAR ∧
    (∃ msg : String, _semaphore_signal_abstract_eval (AVal.semAval SemKind.DMA)
      (AVal.shaped [] DType.int32) [] false
      = .error ⟨ErrKind.ValueError, msg⟩) ∧
    (∃ msg : String, _semaphore_wait_abstract_eval (AVal.semAval SemKind.DMA)
      (AVal.shaped [] DType.int32) = .error ⟨ErrKind.ValueError, msg⟩) := by
  obtain ⟨hs, hw⟩ := semaphore_validation_valueerror_at_bind
  exact ⟨by decide, hs _ _ _ _ (Or.inr (Or.inl (by decide))),
    hw _ _ (Or.inr (Or.inl (by decide)))⟩

/-- C5 counterexample: a signal with a floating-point increment and a
wait with a floating-point decrement are not rejected: the wrappers
coerce the value to int32 with jnp.asarray before binding, so both calls
succeed. -/
theorem semaphore_signal_float_not_rejected_counterex :
    semaphore_signal (.sem ⟨0, SemKind.REGULAR⟩) ⟨[], DType.float32⟩ none
      = .ok [Op.semSignal
          [.sem ⟨0, SemKind.REGULAR⟩, .arr ⟨[], DType.int32⟩] false] ∧
    semaphore_wait (.sem ⟨0, SemKind.REGULAR⟩) ⟨[], DType.float32⟩
      = .ok [Op.semWait
          [.sem ⟨0, SemKind.REGULAR⟩, .arr ⟨[], DType.int32⟩]] :=
  ⟨rfl, rfl⟩

/-- C5 amended: the signal/wait wrappers coerce the increment/decrement
to int32 (so a non-integer value, e.g. floating point, is silently cast
and the call succeeds, binding an int32 operand); a non-int32 value
reaching the primitive's abstract evaluation directly is rejected with a
ValueError whose message identifies the int32 requirement on the value
operand. -/
theorem semaphore_dtype_coercion (sem : Sem) (inc dec : Arr) :
    (sem.kind = SemKind.REGULAR →
      semaphore_signal (.sem sem) inc none
        = .ok [Op.semSignal [.sem sem, .arr ⟨inc.shape, DType.int32⟩] false] ∧
      semaphore_wait (.sem sem) dec
        = .ok [Op.semWait [.sem sem, .arr ⟨dec.shape, DType.int32⟩]]) ∧
    (∀ value : AVal, value.dtype ≠ some DType.int32 →
      _semaphore_signal_abstract_eval (.semAval SemKind.REGULAR) value [] false
        = .error ⟨ErrKind.ValueError, "Must signal an int32 value."⟩ ∧
      _semaphore_wait_abstract_eval (.semAval SemKind.REGULAR) value
        = .error ⟨ErrKind.ValueError, "Must signal an int32 value."⟩) := by
  constructor
  · intro h
    constructor
    · simp [semaphore_signal, asarrayInt32, avalOf,
        _semaphore_signal_abstract_eval, AVal.isSemaphore, AVal.semKind,
        AVal.dtype, h]
    · simp [semaphore_wait, asarrayInt32, avalOf,
        _semaphore_wait_abstract_eval, AVal.isSemaphore, AVal.semKind,
        AVal.dtype, h]
  · intro value hv
    constructor
    · simp [_semaphore_signal_abstract_eval, AVal.isSemaphore, AVal.semKind,
        hv]
    · simp [_semaphore_wait_abstract_eval, AVal.isSemaphore, AVal.semKind,
        hv]

/-- Witness for C5 at a concrete input: a REGULAR semaphore with a
float32 increment/decrement; the wrapper calls succeed with the coerced
int32 operand, and the direct abstract evaluation of a float32 value is
rejected with the int32 ValueError. -/
theorem semaphore_dtype_coercion_witness :
    (Sem.mk 0 SemKind.REGULAR).kind = SemKind.REGULAR ∧
    (AVal.shaped [] DType.float32).dtype ≠ some DType.int32 ∧
    semaphore_signal (.sem ⟨0, SemKind.REGULAR⟩) ⟨[], DType.float32⟩ none
      = .ok [Op.semSignal
          [.sem ⟨0, SemKind.REGULAR⟩, .arr ⟨[], DType.int32⟩] false] ∧
    _semaphore_wait_abstract_eval (.semAval SemKind.REGULAR)
        (.shaped [] DType.float32)
      = .error ⟨ErrKind.ValueError, "Must signal an int32 value."⟩ := by
  obtain ⟨h1, h2⟩ := semaphore_dtype_coercion ⟨0, SemKind.REGULAR⟩
    ⟨[], DType.float32⟩ ⟨[], DType.float32⟩
  exact ⟨rfl, by decide, (h1 rfl).1, (h2 _ (by decide)).2⟩

/-- C2: for every valid argument tuple whose index expressions validate
against the references' shapes, dma_start succeeds (emitting one
dma_start operation) and wait on the returned future succeeds, and the
future's stored flattened operands reconstruct via its structural
descriptor to exactly the tuple (semaphore, dest ref, dest region), the
dest region being the descriptor built from the dest ref and indices. -/
theorem dma_start_wait_future_roundtrip
    (src_ref dst_ref : Ref) (src_indices dst_indices : List Idx) (s : Sem)
    (si di : NDIndexer)
    (h1 : NDIndexer.fromIndicesShape src_indices src_ref.shape = .ok si)
    (h2 : NDIndexer.fromIndicesShape dst_indices dst_ref.shape = .ok di) :
    ∃ fut : DMAFuture,
      dma_start src_ref src_indices dst_ref dst_indices s
        = .ok ([Op.dmaStart
            [.ref src_ref, .idx si, .ref dst_ref, .idx di, .sem s]
            (tup7 (.leaf ()) (.leaf ()) (.leaf ()) (.leaf ()) (.leaf ())
              .nonetree .nonetree)], fut) ∧
      fut.wait = .ok [Op.dmaWait fut.flat_args fut.tree] ∧
      treeUnflatten fut.tree fut.flat_args
        = some (tup3 (.leaf (.sem s)) (.leaf (.ref dst_ref))
            (.leaf (.idx di))) := by
  refine ⟨⟨[.sem s, .ref dst_ref, .idx di],
    tup3 (.leaf ()) (.leaf ()) (.leaf ())⟩, ?_, rfl, rfl⟩
  simp only [dma_start, h1, h2]
  rfl

/-- Witness for C2 at a concrete input with valid slices. -/
theorem dma_start_wait_future_roundtrip_witness :
    NDIndexer.fromIndicesShape [Idx.sliceIdx 0 4] (Ref.mk 0 [4]).shape
      = .ok ⟨[Idx.sliceIdx 0 4], [4]⟩ ∧
    NDIndexer.fromIndicesShape [Idx.sliceIdx 1 2] (Ref.mk 1 [4]).shape
      = .ok ⟨[Idx.sliceIdx 1 2], [4]⟩ ∧
    (∃ fut : DMAFuture,
      dma_start ⟨0, [4]⟩ [Idx.sliceIdx 0 4] ⟨1, [4]⟩ [Idx.sliceIdx 1 2]
          ⟨2, SemKind.REGULAR⟩
        = .ok ([Op.dmaStart
            [.ref ⟨0, [4]⟩, .idx ⟨[Idx.sliceIdx 0 4], [4]⟩, .ref ⟨1, [4]⟩,
              .idx ⟨[Idx.sliceIdx 1 2], [4]⟩, .sem ⟨2, SemKind.REGULAR⟩]
            (tup7 (.leaf ()) (.leaf ()) (.leaf ()) (.leaf ()) (.leaf ())
              .nonetree .nonetree)], fut) ∧
      fut.wait = .ok [Op.dmaWait fut.flat_args fut.tree] ∧
      treeUnflatten fut.tree fut.flat_args
        = some (tup3 (.leaf (.sem ⟨2, SemKind.REGULAR⟩))
            (.leaf (.ref ⟨1, [4]⟩))
            (.leaf (.idx ⟨[Idx.sliceIdx 1 2], [4]⟩)))) :=
  ⟨rfl, rfl,
    dma_start_wait_future_roundtrip ⟨0, [4]⟩ ⟨1, [4]⟩ [Idx.sliceIdx 0 4]
      [Idx.sliceIdx 1 2] ⟨2, SemKind.REGULAR⟩ ⟨[Idx.sliceIdx 0 4], [4]⟩
      ⟨[Idx.sliceIdx 1 2], [4]⟩ rfl rfl⟩

/-- C3 counterexample: a remote transfer whose source and destination
operands coincide (same ref, same indices, same semaphore on both sides)
succeeds and returns two equal futures, whose stored operand sets are
identical rather than disjoint — the claim's "two distinct Futures with
disjoint stored operand sets" fails at this input. -/
theorem remote_dma_start_futures_not_distinct_counterex :
    remote_dma_start ⟨0, [4]⟩ [Idx.sliceIdx 0 4] ⟨0, [4]⟩ [Idx.sliceIdx 0 4]
        ⟨1, SemKind.REGULAR⟩ ⟨1, SemKind.REGULAR⟩ ⟨[], DType.int32⟩
      = .ok ([Op.dmaStart
          [.ref ⟨0, [4]⟩, .idx ⟨[Idx.sliceIdx 0 4], [4]⟩, .ref ⟨0, [4]⟩,
            .idx ⟨[Idx.sliceIdx 0 4], [4]⟩, .sem ⟨1, SemKind.REGULAR⟩,
            .sem ⟨1, SemKind.REGULAR⟩, .arr ⟨[], DType.int32⟩]
          (tup7 (.leaf ()) (.leaf ()) (.leaf ()) (.leaf ()) (.leaf ())
            (.leaf ()) (.leaf ()))],
        ⟨[.sem ⟨1, SemKind.REGULAR⟩, .ref ⟨0, [4]⟩,
            .idx ⟨[Idx.sliceIdx 0 4], [4]⟩],
          tup3 (.leaf ()) (.leaf ()) (.leaf ())⟩,
        ⟨[.sem ⟨1, SemKind.REGULAR⟩, .ref ⟨0, [4]⟩,
            .idx ⟨[Idx.sliceIdx 0 4], [4]⟩],
          tup3 (.leaf ()) (.leaf ()) (.leaf ())⟩) ∧
    ¬ ([Value.sem ⟨1, SemKind.REGULAR⟩, .ref ⟨0, [4]⟩,
        .idx ⟨[Idx.sliceIdx 0 4], [4]⟩].Disjoint
      [Value.sem ⟨1, SemKind.REGULAR⟩, .ref ⟨0, [4]⟩,
        .idx ⟨[Idx.sliceIdx 0 4], [4]⟩]) :=
  ⟨rfl, fun h => h (List.mem_cons_self _ _) (List.mem_cons_self _ _)⟩

/-- C3 amended: remote_dma_start emits exactly one dma_start operation
whose flattened operands reconstruct to the tuple (source ref, source
region, dest ref, dest region, dest semaphore, source semaphore, device
id) in that order, and returns a send future holding (source semaphore,
source ref, source region) and a receive future holding (dest semaphore,
dest ref, dest region); the two futures are distinct with disjoint stored
operand sets whenever the source semaphore, ref and region each differ
from their destination counterparts. -/
theorem remote_dma_start_operands_and_futures
    (src_ref dst_ref : Ref) (src_indices dst_indices : List Idx)
    (src_sem dst_sem : Sem) (device_id : Arr) (si di : NDIndexer)
    (h1 : NDIndexer.fromIndicesShape src_indices src_ref.shape = .ok si)
    (h2 : NDIndexer.fromIndicesShape dst_indices dst_ref.shape = .ok di) :
    ∃ sendF recvF : DMAFuture,
      remote_dma_start src_ref src_indices dst_ref dst_indices src_sem
          dst_sem device_id
        = .ok ([Op.dmaStart
            [.ref src_ref, .idx si, .ref dst_ref, .idx di, .sem dst_sem,
              .sem src_sem, .arr device_id]
            (tup7 (.leaf ()) (.leaf ()) (.leaf ()) (.leaf ()) (.leaf ())
              (.leaf ()) (.leaf ()))], sendF, recvF) ∧
      treeUnflatten
          (tup7 (.leaf ()) (.leaf ()) (.leaf ()) (.leaf ()) (.leaf ())
            (.leaf ()) (.leaf ()))
          [Value.ref src_ref, .idx si, .ref dst_ref, .idx di, .sem dst_sem,
            .sem src_sem, .arr device_id]
        = some (tup7 (.leaf (.ref src_ref)) (.leaf (.idx si))
            (.leaf (.ref dst_ref)) (.leaf (.idx di)) (.leaf (.sem dst_sem))
            (.leaf (.sem src_sem)) (.leaf (.arr device_id))) ∧
      sendF.flat_args = [.sem src_sem, .ref src_ref, .idx si] ∧
      recvF.flat_args = [.sem dst_sem, .ref dst_ref, .idx di] ∧
      (src_sem ≠ dst_sem → src_ref ≠ dst_ref → si ≠ di →
        sendF ≠ recvF ∧ sendF.flat_args.Disjoint recvF.flat_args) := by
  refine ⟨⟨[.sem src_sem, .ref src_ref, .idx si],
      tup3 (.leaf ()) (.leaf ()) (.leaf ())⟩,
    ⟨[.sem dst_sem, .ref dst_ref, .idx di],
      tup3 (.leaf ()) (.leaf ()) (.leaf ())⟩, ?_, rfl, rfl, rfl, ?_⟩
  · simp only [remote_dma_start, h1, h2]
    rfl
  · intro hs hr hi
    constructor
    · simp [DMAFuture.mk.injEq, hs]
    · simp only [List.Disjoint]
      intro a ha hb
      simp only [List.mem_cons, List.not_mem_nil, or_false] at ha hb
      rcases ha with ha | ha | ha <;> rcases hb with hb | hb | hb <;>
        subst ha <;> simp_all

/-- Witness for C3 at a concrete input with distinct source and
destination semaphores, refs and regions. -/
theorem remote_dma_start_operands_and_futures_witness :
    NDIndexer.fromIndicesShape [Idx.sliceIdx 0 4] (Ref.mk 0 [4]).shape
      = .ok ⟨[Idx.sliceIdx 0 4], [4]⟩ ∧
    NDIndexer.fromIndicesShape [Idx.sliceIdx 1 2] (Ref.mk 1 [4]).shape
      = .ok ⟨[Idx.sliceIdx 1 2], [4]⟩ ∧
    (∃ sendF recvF : DMAFuture,
      remote_dma_start ⟨0, [4]⟩ [Idx.sliceIdx 0 4] ⟨1, [4]⟩
          [Idx.sliceIdx 1 2] ⟨2, SemKind.REGULAR⟩ ⟨3, SemKind.REGULAR⟩
          ⟨[], DType.int32⟩
        = .ok ([Op.dmaStart
            [.ref ⟨0, [4]⟩, .idx ⟨[Idx.sliceIdx 0 4], [4]⟩, .ref ⟨1, [4]⟩,
              .idx ⟨[Idx.sliceIdx 1 2], [4]⟩, .sem ⟨3, SemKind.REGULAR⟩,
              .sem ⟨2, SemKind.REGULAR⟩, .arr ⟨[], DType.int32⟩]
            (tup7 (.leaf ()) (.leaf ()) (.leaf ()) (.leaf ()) (.leaf ())
              (.leaf ()) (.leaf ()))], sendF, recvF) ∧
      treeUnflatten
          (tup7 (.leaf ()) (.leaf ()) (.leaf ()) (.leaf ()) (.leaf ())
            (.leaf ()) (.leaf ()))
          [Value.ref ⟨0, [4]⟩, .idx ⟨[Idx.sliceIdx 0 4], [4]⟩,
            .ref ⟨1, [4]⟩, .idx ⟨[Idx.sliceIdx 1 2], [4]⟩,
            .sem ⟨3, SemKind.REGULAR⟩, .sem ⟨2, SemKind.REGULAR⟩,
            .arr ⟨[], DType.int32⟩]
        = some (tup7 (.leaf (.ref ⟨0, [4]⟩))
            (.leaf (.idx ⟨[Idx.sliceIdx 0 4], [4]⟩)) (.leaf (.ref ⟨1, [4]⟩))
            (.leaf (.idx ⟨[Idx.sliceIdx 1 2], [4]⟩))
            (.leaf (.sem ⟨3, SemKind.REGULAR⟩))
            (.leaf (.sem ⟨2, SemKind.REGULAR⟩))
            (.leaf (.arr ⟨[], DType.int32⟩))) ∧
      sendF.flat_args = [.sem ⟨2, SemKind.REGULAR⟩, .ref ⟨0, [4]⟩,
        .idx ⟨[Idx.sliceIdx 0 4], [4]⟩] ∧
      recvF.flat_args = [.sem ⟨3, SemKind.REGULAR⟩, .ref ⟨1, [4]⟩,
        .idx ⟨[Idx.sliceIdx 1 2], [4]⟩] ∧
      ((Sem.mk 2 SemKind.REGULAR) ≠ ⟨3, SemKind.REGULAR⟩ →
        (Ref.mk 0 [4]) ≠ ⟨1, [4]⟩ →
        (NDIndexer.mk [Idx.sliceIdx 0 4] [4]) ≠ ⟨[Idx.sliceIdx 1 2], [4]⟩ →
        sendF ≠ recvF ∧ sendF.flat_args.Disjoint recvF.flat_args)) :=
  ⟨rfl, rfl,
    remote_dma_start_operands_and_futures ⟨0, [4]⟩ ⟨1, [4]⟩
      [Idx.sliceIdx 0 4] [Idx.sliceIdx 1 2] ⟨2, SemKind.REGULAR⟩
      ⟨3, SemKind.REGULAR⟩ ⟨[], DType.int32⟩ ⟨[Idx.sliceIdx 0 4], [4]⟩
      ⟨[Idx.sliceIdx 1 2], [4]⟩ rfl rfl⟩

end MosaicPrimitives
